import Mathlib

/-!
logonbox-vpn-drivers: the two launcher shims.

A shallow embedding of

* `src/dll/examples/c/program.c` (`main`, the isolate-hosted invoker), and
* `src/windows/src/network-configuration-service/network-configuration-service.c`
  (`srv_log_open`, `srv_log_write`, `srv_log_close`, `srv_log`, `_tmain`, the service
  launcher),

together with the properties of their exit paths, call sequences and log contents.

Both programs are straight-line glue around external calls.  Every external call is
answered by an oracle record, and the run returns the sequence of calls it made, so that
statements of the form "never called", "called exactly once", "directly before" are
statements about that sequence.
-/

namespace Invoker

/-- Answers of the embedded runtime declared in `lbvdll.h` (not part of the repository
sources): the result of `graal_create_isolate` together with the thread pointer it
stores, the handle returned by `up`, and the value of `get_error_code`. -/
structure Runtime where
  graal_create_isolate : Int
  thread : Nat
  up : Nat → String → Int → Int → Int
  get_error_code : Nat → Int

/-- Runtime calls made by `main`, with their arguments. -/
inductive Call where
  | graal_create_isolate
  | up (thread : Nat) (path : String) (a b : Int)
  | get_error_code (thread : Nat)
  | stop (thread : Nat) (path : String) (a b : Int)
  | graal_detach_all_threads_and_tear_down_isolate (thread : Nat)
  deriving DecidableEq, Repr

/-- Observable behaviour of one run of the invoker. -/
structure Run where
  calls : List Call
  stdout : String
  stderr : String
  status : Int
  deriving DecidableEq, Repr

/-- The text produced by `fprintf(stderr, "Usage: %s [up|down] <wgfile>\n", argv[0])`. -/
def usage (argv0 : String) : String :=
  "Usage: " ++ argv0 ++ " [up|down] <wgfile>\n"

/-- The function `main` of `program.c`.  `argv0` is `argv[0]` and `args` is
`argv[1], argv[2], ...`, so `argc = args.length + 1`.  Falling off the end of `main`
is exit status 0. -/
def main (rt : Runtime) (argv0 : String) (args : List String) : Run :=
  if args.length + 1 ≠ 3 then
    { calls := [], stdout := "", stderr := usage argv0, status := 1 }
  else if rt.graal_create_isolate ≠ 0 then
    { calls := [Call.graal_create_isolate], stdout := "",
      stderr := "initialization error\n", status := 1 }
  else
    let thread := rt.thread
    let argv1 := args.getD 0 ""
    let argv2 := args.getD 1 ""
    if argv1 = "up" then
      let hndl := rt.up thread argv2 0 0
      let out := "Handle: " ++ toString hndl ++ "\n"
      if hndl = 0 then
        { calls := [Call.graal_create_isolate, Call.up thread argv2 0 0,
                    Call.get_error_code thread,
                    Call.graal_detach_all_threads_and_tear_down_isolate thread],
          stdout := out ++ ("Code: " ++ toString (rt.get_error_code thread) ++ "\n"),
          stderr := "tearing down\n", status := 0 }
      else
        { calls := [Call.graal_create_isolate, Call.up thread argv2 0 0,
                    Call.graal_detach_all_threads_and_tear_down_isolate thread],
          stdout := out, stderr := "tearing down\n", status := 0 }
    else if argv1 = "down" then
      { calls := [Call.graal_create_isolate, Call.stop thread argv2 0 0,
                  Call.graal_detach_all_threads_and_tear_down_isolate thread],
        stdout := "", stderr := "tearing down\n", status := 0 }
    else
      { calls := [Call.graal_create_isolate,
                  Call.graal_detach_all_threads_and_tear_down_isolate thread],
        stdout := "", stderr := usage argv0, status := 1 }

/-- Is the call a teardown? -/
def isTeardown : Call → Bool
  | Call.graal_detach_all_threads_and_tear_down_isolate _ => true
  | _ => false

/-- Is the call one of the two operations `up` / `stop`? -/
def isInvoke : Call → Bool
  | Call.up _ _ _ _ => true
  | Call.stop _ _ _ _ => true
  | _ => false

/-- Is the call `get_error_code`? -/
def isErrorCode : Call → Bool
  | Call.get_error_code _ => true
  | _ => false

/-- A runtime that fails to initialise. -/
def failingRuntime : Runtime :=
  { graal_create_isolate := 1, thread := 0, up := fun _ _ _ _ => 0,
    get_error_code := fun _ => 0 }

/-- A runtime that initialises, hands out thread 7, and whose `up` fails with error
code 5 on every target except `good.conf`, for which it returns handle 42. -/
def sampleRuntime : Runtime :=
  { graal_create_isolate := 0, thread := 7,
    up := fun _ path _ _ => if path = "good.conf" then 42 else 0,
    get_error_code := fun _ => 5 }

end Invoker

namespace Launcher

/-- A wide string (`LPCWSTR`, `TCHAR*` in the Unicode build): its UTF-16 code units,
without the terminating zero. -/
abbrev WStr := List Nat

/-- A wide string literal `L"..."` whose characters are all in the basic plane. -/
def L (s : String) : WStr := s.toList.map Char.toNat

/-- Lower-casing of the letters `A`..`Z`; every other code unit is kept. -/
def towlower (c : Nat) : Nat := if 65 ≤ c ∧ c ≤ 90 then c + 32 else c

/-- The Win32 comparison `lstrcmpi`, restricted to what the launcher needs of it: the
strings are compared unit by unit after lower-casing the letters `A`..`Z`; the result is
negative, zero or positive. -/
def lstrcmpi : WStr → WStr → Int
  | [], [] => 0
  | [], _ :: _ => -1
  | _ :: _, [] => 1
  | a :: as, b :: bs =>
    if towlower a < towlower b then -1
    else if towlower b < towlower a then 1
    else lstrcmpi as bs

/-- The CRT formatter `swprintf_s(buffer, sizeOfBuffer, ...)` applied to an already
expanded text: the text is stored when it fits the buffer together with its terminating
zero; otherwise the buffer is left holding the empty string and the invalid-parameter
handler is invoked (`none`), which by default ends the process. -/
def swprintf_s (sizeOfBuffer : Nat) (text : WStr) : Option WStr :=
  if text.length + 1 ≤ sizeOfBuffer then some text else none

/-- The bytes `WriteFile(hndl, txt, wcslen(txt) * 2, ...)` takes from memory: two bytes
per code unit, low byte first. -/
def utf16le (txt : WStr) : List Nat :=
  txt.flatMap fun u => [u % 256, u / 256 % 256]

/-- An open file handle: a number identifying the open, and the file it refers to. -/
structure HANDLE where
  id : Nat
  path : WStr
  deriving DecidableEq, Repr

/-- Answers of the operating system and of `tunnel.dll`.
* `DeleteFile`: whether deleting an existing file succeeds;
* `CreateFile n`: whether the `n`-th call of `CreateFile` in the run (from 0) returns a
  valid handle rather than `INVALID_HANDLE_VALUE`;
* `LoadLibrary name`: the module handle, 0 for `NULL`;
* `GetProcAddress module name`: the procedure address, 0 for `NULL`;
* `tunnel_proc address conf`: the `BOOL` returned by the procedure at that address. -/
structure Env where
  DeleteFile : Bool
  CreateFile : Nat → Bool
  LoadLibrary : WStr → Nat
  GetProcAddress : Nat → String → Nat
  tunnel_proc : Nat → WStr → Bool

/-- Calls made during a run of the launcher.  `srv_log` records an entry into the
function `srv_log` of the source with its argument; the others are calls that leave
the program.  `tunnel_proc` carries the `BOOL` the procedure returned, which `_tmain`
discards. -/
inductive Call where
  | SetCurrentDirectory (dir : WStr)
  | DeleteFile (path : WStr)
  | srv_log (txt : WStr)
  | CreateFile (path : WStr)
  | WriteFile (hndl : HANDLE) (bytes : List Nat)
  | SetFilePointer (hndl : HANDLE)
  | CloseHandle (hndl : HANDLE)
  | LoadLibrary (name : WStr)
  | GetProcAddress (module : Nat) (name : String)
  | tunnel_proc (address : Nat) (conf : WStr) (result : Bool)
  deriving DecidableEq, Repr

/-- Program and file-system state.  `files` maps a path, as resolved from the working
directory in force after line 75, to the bytes of the file there (`none`: no file);
`LOGPATH` is the global buffer of the source (zero-initialised, so empty at start);
`opens` counts the `CreateFile` calls made so far; `trace` is the sequence of calls. -/
structure State where
  LOGPATH : WStr
  files : WStr → Option (List Nat)
  opens : Nat
  trace : List Call

/-- How a run ends: `return n` from `_tmain`, or inside the CRT invalid-parameter
handler, which terminates the process without returning to `_tmain`. -/
inductive Outcome where
  | exit (status : Int)
  | invalid_parameter
  deriving DecidableEq, Repr

/-- Records a call. -/
def emit (c : Call) (s : State) : State := { s with trace := s.trace ++ [c] }

/-- The effect of `WriteFile` on a handle opened with `FILE_APPEND_DATA`: the bytes
go to the end of the file. -/
def WriteFile (hndl : HANDLE) (bytes : List Nat) (s : State) : State :=
  emit (Call.WriteFile hndl bytes)
    { s with files := Function.update s.files hndl.path
                        (some ((s.files hndl.path).getD [] ++ bytes)) }

/-- The function `srv_log_close`. -/
def srv_log_close (hndl : HANDLE) (s : State) : State :=
  emit (Call.CloseHandle hndl) s

/-- The function `srv_log_open`: `CreateFile(LOGPATH, FILE_APPEND_DATA, ..., OPEN_ALWAYS,
...)`.  On a valid handle, the two header bytes are written unless the file already
existed (`GetLastError() == ERROR_ALREADY_EXISTS`), then the file pointer is moved to the
end.  `none` is `INVALID_HANDLE_VALUE`. -/
def srv_log_open (env : Env) (s : State) : Option HANDLE × State :=
  let s1 := emit (Call.CreateFile s.LOGPATH) { s with opens := s.opens + 1 }
  if env.CreateFile s.opens then
    let hndl : HANDLE := { id := s.opens, path := s.LOGPATH }
    match s.files s.LOGPATH with
    | some _ => (some hndl, emit (Call.SetFilePointer hndl) s1)
    | none =>
      let s2 := { s1 with files := Function.update s1.files s.LOGPATH (some []) }
      (some hndl, emit (Call.SetFilePointer hndl) (WriteFile hndl [0xFF, 0xFE] s2))
  else (none, s1)

/-- The function `srv_log_write`. -/
def srv_log_write (hndl : HANDLE) (txt : WStr) (s : State) : State :=
  WriteFile hndl (utf16le txt) s

/-- The function `srv_log`. -/
def srv_log (env : Env) (txt : WStr) (s : State) : State :=
  match srv_log_open env (emit (Call.srv_log txt) s) with
  | (some logHndl, s1) => srv_log_close logHndl (srv_log_write logHndl txt s1)
  | (none, s1) => s1

/-- The effect of `DeleteFile(path)`; its result is not looked at by the caller. -/
def DeleteFile (env : Env) (path : WStr) (s : State) : State :=
  emit (Call.DeleteFile path)
    (if env.DeleteFile then { s with files := Function.update s.files path none } else s)

/-- The text of `swprintf_s(LOGPATH, 256, L"logs\\%s.log", argv[3])` before the size
check. -/
def logText (identifier : WStr) : WStr := L "logs\\" ++ identifier ++ L ".log"

/-- The text of `swprintf_s(wcstr, 256, L"conf\\connections\\%s.conf", argv[3])` before
the size check. -/
def confText (identifier : WStr) : WStr :=
  L "conf\\connections\\" ++ identifier ++ L ".conf"

/-- Lines 79 to 85 of `_tmain`: the seven messages logged before the library is loaded. -/
def banner (env : Env) (argv2 argv3 : WStr) (s : State) : State :=
  let s := srv_log env (L "[network-configuration-service] [INFO] Service for ") s
  let s := srv_log env argv3 s
  let s := srv_log env (L "\r\n") s
  let s := srv_log env (L "[network-configuration-service] [INFO] Running in ") s
  let s := srv_log env argv2 s
  let s := srv_log env (L "\r\n") s
  srv_log env (L "[network-configuration-service] [INFO] Opening tunnel.dll\r\n") s

/-- Lines 87 to 109 of `_tmain`: load the library, resolve the export, call it. -/
def service (env : Env) (argv3 : WStr) (s : State) : Outcome × State :=
  let tunnel_lib := env.LoadLibrary (L "tunnel.dll")
  let s := emit (Call.LoadLibrary (L "tunnel.dll")) s
  if tunnel_lib = 0 then
    (Outcome.exit 2,
     srv_log env (L "[network-configuration-service] [ERROR] No tunnel.dll found in PATH\r\n") s)
  else
    let s := srv_log env (L "[network-configuration-service] [INFO] Looking up procedure\r\n") s
    let tunnel_proc := env.GetProcAddress tunnel_lib "WireGuardTunnelService"
    let s := emit (Call.GetProcAddress tunnel_lib "WireGuardTunnelService") s
    if tunnel_proc = 0 then
      (Outcome.exit 3,
       srv_log env
         (L "[network-configuration-service] [INFO] No procedure found! This should be impossible\r\n") s)
    else
      match swprintf_s 256 (confText argv3) with
      | none => (Outcome.invalid_parameter, s)
      | some wcstr =>
        let s := srv_log env (L "[network-configuration-service] [INFO] Starting tunnel\r\n") s
        let result := env.tunnel_proc tunnel_proc wcstr
        let s := emit (Call.tunnel_proc tunnel_proc wcstr result) s
        let s := srv_log env (L "[network-configuration-service] [INFO] Normal tunnel exit\r\n") s
        (Outcome.exit 0, s)

/-- The function `_tmain`, with `argc = argv.length`. -/
def _tmain (env : Env) (argv : List WStr) (s : State) : Outcome × State :=
  if argv.length ≠ 4 ∨ lstrcmpi (argv.getD 1 []) (L "/service") ≠ 0 then
    (Outcome.exit 1, s)
  else
    let argv2 := argv.getD 2 []
    let argv3 := argv.getD 3 []
    let s := emit (Call.SetCurrentDirectory argv2) s
    match swprintf_s 256 (logText argv3) with
    | none => (Outcome.invalid_parameter, s)
    | some path =>
      let s := { s with LOGPATH := path }
      let s := DeleteFile env s.LOGPATH s
      service env argv3 (banner env argv2 argv3 s)

/-- The state at process start: empty `LOGPATH`, no call made yet. -/
def start (files : WStr → Option (List Nat)) : State :=
  { LOGPATH := [], files := files, opens := 0, trace := [] }

/-- One run of the launcher from process start. -/
def run (env : Env) (argv : List WStr) (files : WStr → Option (List Nat)) : Outcome × State :=
  _tmain env argv (start files)

/-- The messages passed to `srv_log`, in call order. -/
def logged (t : List Call) : List WStr :=
  t.filterMap fun c => match c with
    | Call.srv_log txt => some txt
    | _ => none

/-- The payloads of the `WriteFile` calls, in call order. -/
def written (t : List Call) : List (List Nat) :=
  t.filterMap fun c => match c with
    | Call.WriteFile _ bytes => some bytes
    | _ => none

/-- Calls into the loader and into the library: `LoadLibrary`, `GetProcAddress` and the
tunnel procedure. -/
def isLoaderCall : Call → Bool
  | Call.LoadLibrary _ => true
  | Call.GetProcAddress _ _ => true
  | Call.tunnel_proc _ _ _ => true
  | _ => false

/-- Calls made from inside `srv_log` on the log file. -/
def isFileCall : Call → Bool
  | Call.CreateFile _ => true
  | Call.WriteFile _ _ => true
  | Call.SetFilePointer _ => true
  | Call.CloseHandle _ => true
  | _ => false

/-- The run as seen from `_tmain`: the trace without the file calls made inside
`srv_log`. -/
def steps (t : List Call) : List Call := t.filter fun c => !isFileCall c

/-- Two spellings that differ at most in the case of letters `A`..`Z` / `a`..`z`. -/
def SameUpToCase : WStr → WStr → Prop
  | [], [] => True
  | a :: as, b :: bs =>
    (a = b ∨ (65 ≤ a ∧ a ≤ 90 ∧ b = a + 32) ∨ (65 ≤ b ∧ b ≤ 90 ∧ a = b + 32)) ∧
      SameUpToCase as bs
  | _, _ => False

instance SameUpToCase.instDecidable : (a b : WStr) → Decidable (SameUpToCase a b)
  | [], [] => isTrue (by simp [SameUpToCase])
  | [], _ :: _ => isFalse (by simp [SameUpToCase])
  | _ :: _, [] => isFalse (by simp [SameUpToCase])
  | a :: as, b :: bs =>
    have : Decidable (SameUpToCase as bs) := SameUpToCase.instDecidable as bs
    decidable_of_iff
      ((a = b ∨ (65 ≤ a ∧ a ≤ 90 ∧ b = a + 32) ∨ (65 ≤ b ∧ b ≤ 90 ∧ a = b + 32)) ∧
        SameUpToCase as bs)
      (by simp [SameUpToCase])

/-- The state after line 77 of `_tmain`: directory set, `LOGPATH` filled, old log file
deleted. -/
def prepared (env : Env) (argv2 argv3 : WStr) (files : WStr → Option (List Nat)) : State :=
  DeleteFile env (logText argv3)
    { emit (Call.SetCurrentDirectory argv2) (start files) with LOGPATH := logText argv3 }

/-- The argument check of `_tmain` passes. -/
def ValidArgs (argv : List WStr) : Prop :=
  argv.length = 4 ∧ lstrcmpi (argv.getD 1 []) (L "/service") = 0

instance (argv : List WStr) : Decidable (ValidArgs argv) := by
  unfold ValidArgs; infer_instance

/-- The log file at `LOGPATH` holds the two header bytes followed by the messages logged
so far, and the `WriteFile` calls so far are the header and one payload per message. -/
def LogIntact (s : State) : Prop :=
  s.files s.LOGPATH = some ([0xFF, 0xFE] ++ (logged s.trace).flatMap utf16le) ∧
  written s.trace = [0xFF, 0xFE] :: (logged s.trace).map utf16le

/-- No file at `LOGPATH`, nothing logged and nothing written yet. -/
def LogAbsent (s : State) : Prop :=
  s.files s.LOGPATH = none ∧ written s.trace = [] ∧ logged s.trace = []

instance (s : State) : Decidable (LogIntact s) := by
  unfold LogIntact; infer_instance

instance (s : State) : Decidable (LogAbsent s) := by
  unfold LogAbsent; infer_instance

/-- No file anywhere. -/
def noFiles : WStr → Option (List Nat) := fun _ => none

/-- An environment without `tunnel.dll`. -/
def envNoLibrary : Env :=
  { DeleteFile := true, CreateFile := fun _ => true, LoadLibrary := fun _ => 0,
    GetProcAddress := fun _ _ => 0, tunnel_proc := fun _ _ => false }

/-- An environment whose `tunnel.dll` (module 7) exports the procedure (address 9),
which returns `TRUE`. -/
def envTunnel : Env :=
  { DeleteFile := true, CreateFile := fun _ => true, LoadLibrary := fun _ => 7,
    GetProcAddress := fun _ _ => 9, tunnel_proc := fun _ _ => true }

/-- The environment `envTunnel` with every open of the log file failing. -/
def envTunnelNoLog : Env := { envTunnel with CreateFile := fun _ => false }

/-- The command line `program /service C:\app host1`. -/
def argvHost1 : List WStr := [L "program", L "/service", L "C:\\app", L "host1"]

/-- A valid command line whose identifier is `n` times the letter `a`. -/
def argvOfLength (n : Nat) : List WStr :=
  [L "program", L "/service", L "C:\\app", List.replicate n 97]

/-- A file system with one file, of three bytes, at the given path. -/
def oneFile (path : WStr) : WStr → Option (List Nat) :=
  fun p => if p = path then some [1, 2, 3] else none

end Launcher

namespace Launcher

/-! ### Effect of one `srv_log` call -/

/-- When the open fails, `srv_log` makes the `CreateFile` call and nothing else. -/
theorem srv_log_fail (env : Env) (txt : WStr) (s : State)
    (h : env.CreateFile s.opens = false) :
    srv_log env txt s =
      { s with opens := s.opens + 1,
               trace := s.trace ++ [Call.srv_log txt, Call.CreateFile s.LOGPATH] } := by
  simp [srv_log, srv_log_open, emit, h]

/-- When the open creates the file, the header is written before the text. -/
theorem srv_log_new (env : Env) (txt : WStr) (s : State)
    (h : env.CreateFile s.opens = true) (hf : s.files s.LOGPATH = none) :
    srv_log env txt s =
      { s with opens := s.opens + 1,
               files := Function.update s.files s.LOGPATH (some ([0xFF, 0xFE] ++ utf16le txt)),
               trace := s.trace ++
                 [Call.srv_log txt, Call.CreateFile s.LOGPATH,
                  Call.WriteFile ⟨s.opens, s.LOGPATH⟩ [0xFF, 0xFE],
                  Call.SetFilePointer ⟨s.opens, s.LOGPATH⟩,
                  Call.WriteFile ⟨s.opens, s.LOGPATH⟩ (utf16le txt),
                  Call.CloseHandle ⟨s.opens, s.LOGPATH⟩] } := by
  simp [srv_log, srv_log_open, emit, h, hf, srv_log_close, srv_log_write, WriteFile]

/-- When the open finds the file, only the text is written, at its end. -/
theorem srv_log_old (env : Env) (txt : WStr) (s : State) (c : List Nat)
    (h : env.CreateFile s.opens = true) (hf : s.files s.LOGPATH = some c) :
    srv_log env txt s =
      { s with opens := s.opens + 1,
               files := Function.update s.files s.LOGPATH (some (c ++ utf16le txt)),
               trace := s.trace ++
                 [Call.srv_log txt, Call.CreateFile s.LOGPATH,
                  Call.SetFilePointer ⟨s.opens, s.LOGPATH⟩,
                  Call.WriteFile ⟨s.opens, s.LOGPATH⟩ (utf16le txt),
                  Call.CloseHandle ⟨s.opens, s.LOGPATH⟩] } := by
  simp [srv_log, srv_log_open, emit, h, hf, srv_log_close, srv_log_write, WriteFile]

/-- The three ways one `srv_log` call can go. -/
theorem srv_log_cases (env : Env) (s : State) :
    (env.CreateFile s.opens = false) ∨
    (env.CreateFile s.opens = true ∧ s.files s.LOGPATH = none) ∨
    (env.CreateFile s.opens = true ∧ ∃ c, s.files s.LOGPATH = some c) := by
  cases h : env.CreateFile s.opens
  · exact Or.inl rfl
  · cases hf : s.files s.LOGPATH
    · exact Or.inr (Or.inl ⟨rfl, rfl⟩)
    · exact Or.inr (Or.inr ⟨rfl, _, rfl⟩)

theorem srv_log_LOGPATH (env : Env) (txt : WStr) (s : State) :
    (srv_log env txt s).LOGPATH = s.LOGPATH := by
  rcases srv_log_cases env s with h | ⟨h, hf⟩ | ⟨h, c, hf⟩
  · rw [srv_log_fail env txt s h]
  · rw [srv_log_new env txt s h hf]
  · rw [srv_log_old env txt s c h hf]

theorem srv_log_opens (env : Env) (txt : WStr) (s : State) :
    (srv_log env txt s).opens = s.opens + 1 := by
  rcases srv_log_cases env s with h | ⟨h, hf⟩ | ⟨h, c, hf⟩
  · rw [srv_log_fail env txt s h]
  · rw [srv_log_new env txt s h hf]
  · rw [srv_log_old env txt s c h hf]

theorem logged_srv_log (env : Env) (txt : WStr) (s : State) :
    logged (srv_log env txt s).trace = logged s.trace ++ [txt] := by
  rcases srv_log_cases env s with h | ⟨h, hf⟩ | ⟨h, c, hf⟩
  · rw [srv_log_fail env txt s h]; simp [logged]
  · rw [srv_log_new env txt s h hf]; simp [logged]
  · rw [srv_log_old env txt s c h hf]; simp [logged]

theorem steps_srv_log (env : Env) (txt : WStr) (s : State) :
    steps (srv_log env txt s).trace = steps s.trace ++ [Call.srv_log txt] := by
  rcases srv_log_cases env s with h | ⟨h, hf⟩ | ⟨h, c, hf⟩
  · rw [srv_log_fail env txt s h]; simp [steps, isFileCall]
  · rw [srv_log_new env txt s h hf]; simp [steps, isFileCall]
  · rw [srv_log_old env txt s c h hf]; simp [steps, isFileCall]

theorem loader_srv_log (env : Env) (txt : WStr) (s : State) :
    (srv_log env txt s).trace.filter isLoaderCall = s.trace.filter isLoaderCall := by
  rcases srv_log_cases env s with h | ⟨h, hf⟩ | ⟨h, c, hf⟩
  · rw [srv_log_fail env txt s h]; simp [isLoaderCall]
  · rw [srv_log_new env txt s h hf]; simp [isLoaderCall]
  · rw [srv_log_old env txt s c h hf]; simp [isLoaderCall]

/-! ### Shape of a run -/

theorem logText_length (identifier : WStr) :
    (logText identifier).length = identifier.length + 9 := by
  have h1 : (L "logs\\").length = 5 := by rfl
  have h2 : (L ".log").length = 4 := by rfl
  simp [logText, h1, h2]; omega

theorem confText_length (identifier : WStr) :
    (confText identifier).length = identifier.length + 22 := by
  have h1 : (L "conf\\connections\\").length = 17 := by rfl
  have h2 : (L ".conf").length = 5 := by rfl
  simp [confText, h1, h2]; omega

/-- A rejected argument vector: `_tmain` returns 1 at once. -/
theorem run_rejected (env : Env) (argv : List WStr) (files : WStr → Option (List Nat))
    (h : ¬ ValidArgs argv) : run env argv files = (Outcome.exit 1, start files) := by
  have h' : argv.length ≠ 4 ∨ lstrcmpi (argv.getD 1 []) (L "/service") ≠ 0 := by
    unfold ValidArgs at h
    by_cases hl : argv.length = 4
    · exact Or.inr (fun h0 => h ⟨hl, h0⟩)
    · exact Or.inl hl
  unfold run _tmain
  rw [if_pos h']

/-- An accepted argument vector whose identifier overflows `LOGPATH`. -/
theorem run_overflow (env : Env) (argv : List WStr) (files : WStr → Option (List Nat))
    (hv : ValidArgs argv) (hlen : 246 < (argv.getD 3 []).length) :
    run env argv files =
      (Outcome.invalid_parameter,
       emit (Call.SetCurrentDirectory (argv.getD 2 [])) (start files)) := by
  have h' : ¬ (argv.length ≠ 4 ∨ lstrcmpi (argv.getD 1 []) (L "/service") ≠ 0) := by
    rintro (h | h)
    · exact h hv.1
    · exact h hv.2
  have hs : swprintf_s 256 (logText (argv.getD 3 [])) = none := by
    unfold swprintf_s
    rw [if_neg]
    rw [logText_length]; omega
  unfold run _tmain
  rw [if_neg h']
  simp only [hs]

/-- An accepted argument vector whose identifier fits `LOGPATH`. -/
theorem run_accepted (env : Env) (argv : List WStr) (files : WStr → Option (List Nat))
    (hv : ValidArgs argv) (hlen : (argv.getD 3 []).length ≤ 246) :
    run env argv files =
      service env (argv.getD 3 [])
        (banner env (argv.getD 2 []) (argv.getD 3 [])
          (prepared env (argv.getD 2 []) (argv.getD 3 []) files)) := by
  have h' : ¬ (argv.length ≠ 4 ∨ lstrcmpi (argv.getD 1 []) (L "/service") ≠ 0) := by
    rintro (h | h)
    · exact h hv.1
    · exact h hv.2
  have hs : swprintf_s 256 (logText (argv.getD 3 [])) = some (logText (argv.getD 3 [])) := by
    unfold swprintf_s
    rw [if_pos]
    rw [logText_length]; omega
  unfold run _tmain
  rw [if_neg h']
  simp only [hs, prepared]

theorem steps_emit (c : Call) (s : State) (h : isFileCall c = false) :
    steps (emit c s).trace = steps s.trace ++ [c] := by
  simp [steps, emit, h]

theorem logged_steps (t : List Call) : logged (steps t) = logged t := by
  induction t with
  | nil => rfl
  | cons c t ih =>
    cases c <;> simp [steps, logged, isFileCall] at ih ⊢ <;> exact ih

theorem loader_steps (t : List Call) :
    (steps t).filter isLoaderCall = t.filter isLoaderCall := by
  induction t with
  | nil => rfl
  | cons c t ih =>
    cases c <;> simp [steps, isLoaderCall, isFileCall] at ih ⊢ <;> exact ih

theorem banner_LOGPATH (env : Env) (argv2 argv3 : WStr) (s : State) :
    (banner env argv2 argv3 s).LOGPATH = s.LOGPATH := by
  simp [banner, srv_log_LOGPATH]

theorem banner_opens (env : Env) (argv2 argv3 : WStr) (s : State) :
    (banner env argv2 argv3 s).opens = s.opens + 7 := by
  simp [banner, srv_log_opens]

theorem steps_banner (env : Env) (argv2 argv3 : WStr) (s : State) :
    steps (banner env argv2 argv3 s).trace =
      steps s.trace ++
        [Call.srv_log (L "[network-configuration-service] [INFO] Service for "),
         Call.srv_log argv3,
         Call.srv_log (L "\r\n"),
         Call.srv_log (L "[network-configuration-service] [INFO] Running in "),
         Call.srv_log argv2,
         Call.srv_log (L "\r\n"),
         Call.srv_log (L "[network-configuration-service] [INFO] Opening tunnel.dll\r\n")] := by
  simp [banner, steps_srv_log]

theorem prepared_trace (env : Env) (argv2 argv3 : WStr) (files : WStr → Option (List Nat)) :
    (prepared env argv2 argv3 files).trace =
      [Call.SetCurrentDirectory argv2, Call.DeleteFile (logText argv3)] := by
  cases h : env.DeleteFile <;> simp [prepared, DeleteFile, emit, start, h]

theorem prepared_LOGPATH (env : Env) (argv2 argv3 : WStr) (files : WStr → Option (List Nat)) :
    (prepared env argv2 argv3 files).LOGPATH = logText argv3 := by
  cases h : env.DeleteFile <;> simp [prepared, DeleteFile, emit, start, h]

theorem prepared_opens (env : Env) (argv2 argv3 : WStr) (files : WStr → Option (List Nat)) :
    (prepared env argv2 argv3 files).opens = 0 := by
  cases h : env.DeleteFile <;> simp [prepared, DeleteFile, emit, start, h]

/-- The library is missing. -/
theorem service_noLibrary (env : Env) (argv3 : WStr) (s : State)
    (hlib : env.LoadLibrary (L "tunnel.dll") = 0) :
    service env argv3 s =
      (Outcome.exit 2,
       srv_log env (L "[network-configuration-service] [ERROR] No tunnel.dll found in PATH\r\n")
         (emit (Call.LoadLibrary (L "tunnel.dll")) s)) := by
  simp [service, hlib]

/-- The library is there, the export is missing. -/
theorem service_noExport (env : Env) (argv3 : WStr) (s : State)
    (hlib : env.LoadLibrary (L "tunnel.dll") ≠ 0)
    (hproc : env.GetProcAddress (env.LoadLibrary (L "tunnel.dll")) "WireGuardTunnelService" = 0) :
    service env argv3 s =
      (Outcome.exit 3,
       srv_log env
         (L "[network-configuration-service] [INFO] No procedure found! This should be impossible\r\n")
         (emit (Call.GetProcAddress (env.LoadLibrary (L "tunnel.dll")) "WireGuardTunnelService")
           (srv_log env (L "[network-configuration-service] [INFO] Looking up procedure\r\n")
             (emit (Call.LoadLibrary (L "tunnel.dll")) s)))) := by
  simp [service, hlib, hproc]

/-- Library and export are there, the identifier overflows `wcstr`. -/
theorem service_overflow (env : Env) (argv3 : WStr) (s : State)
    (hlib : env.LoadLibrary (L "tunnel.dll") ≠ 0)
    (hproc : env.GetProcAddress (env.LoadLibrary (L "tunnel.dll")) "WireGuardTunnelService" ≠ 0)
    (hlen : 233 < argv3.length) :
    service env argv3 s =
      (Outcome.invalid_parameter,
       emit (Call.GetProcAddress (env.LoadLibrary (L "tunnel.dll")) "WireGuardTunnelService")
         (srv_log env (L "[network-configuration-service] [INFO] Looking up procedure\r\n")
           (emit (Call.LoadLibrary (L "tunnel.dll")) s))) := by
  have hs : swprintf_s 256 (confText argv3) = none := by
    unfold swprintf_s
    rw [if_neg]
    rw [confText_length]; omega
  simp [service, hlib, hproc, hs]

/-- Library and export are there, the identifier fits `wcstr`. -/
theorem service_call (env : Env) (argv3 : WStr) (s : State)
    (hlib : env.LoadLibrary (L "tunnel.dll") ≠ 0)
    (hproc : env.GetProcAddress (env.LoadLibrary (L "tunnel.dll")) "WireGuardTunnelService" ≠ 0)
    (hlen : argv3.length ≤ 233) :
    service env argv3 s =
      (Outcome.exit 0,
       srv_log env (L "[network-configuration-service] [INFO] Normal tunnel exit\r\n")
         (emit (Call.tunnel_proc
                 (env.GetProcAddress (env.LoadLibrary (L "tunnel.dll")) "WireGuardTunnelService")
                 (confText argv3)
                 (env.tunnel_proc
                   (env.GetProcAddress (env.LoadLibrary (L "tunnel.dll")) "WireGuardTunnelService")
                   (confText argv3)))
           (srv_log env (L "[network-configuration-service] [INFO] Starting tunnel\r\n")
             (emit (Call.GetProcAddress (env.LoadLibrary (L "tunnel.dll")) "WireGuardTunnelService")
               (srv_log env (L "[network-configuration-service] [INFO] Looking up procedure\r\n")
                 (emit (Call.LoadLibrary (L "tunnel.dll")) s)))))) := by
  have hs : swprintf_s 256 (confText argv3) = some (confText argv3) := by
    unfold swprintf_s
    rw [if_pos]
    rw [confText_length]; omega
  simp [service, hlib, hproc, hs]

end Launcher

namespace Launcher

/-! ### The calls of a run, as seen from `_tmain` -/

theorem steps_prepared (env : Env) (argv2 argv3 : WStr) (files : WStr → Option (List Nat)) :
    steps (prepared env argv2 argv3 files).trace =
      [Call.SetCurrentDirectory argv2, Call.DeleteFile (logText argv3)] := by
  rw [prepared_trace]; rfl

/-- The calls of a run that does not find the library. -/
theorem steps_run_noLibrary (env : Env) (argv : List WStr) (files : WStr → Option (List Nat))
    (hv : ValidArgs argv) (hlen : (argv.getD 3 []).length ≤ 246)
    (hlib : env.LoadLibrary (L "tunnel.dll") = 0) :
    (run env argv files).1 = Outcome.exit 2 ∧
    steps (run env argv files).2.trace =
      [Call.SetCurrentDirectory (argv.getD 2 []),
       Call.DeleteFile (logText (argv.getD 3 [])),
       Call.srv_log (L "[network-configuration-service] [INFO] Service for "),
       Call.srv_log (argv.getD 3 []),
       Call.srv_log (L "\r\n"),
       Call.srv_log (L "[network-configuration-service] [INFO] Running in "),
       Call.srv_log (argv.getD 2 []),
       Call.srv_log (L "\r\n"),
       Call.srv_log (L "[network-configuration-service] [INFO] Opening tunnel.dll\r\n"),
       Call.LoadLibrary (L "tunnel.dll"),
       Call.srv_log
         (L "[network-configuration-service] [ERROR] No tunnel.dll found in PATH\r\n")] := by
  rw [run_accepted env argv files hv hlen, service_noLibrary env _ _ hlib]
  refine ⟨rfl, ?_⟩
  simp only [steps_srv_log, steps_emit _ _ (rfl : isFileCall (Call.LoadLibrary _) = false),
    steps_banner, steps_prepared]
  rfl

/-- The calls of a run that finds the library but not the export. -/
theorem steps_run_noExport (env : Env) (argv : List WStr) (files : WStr → Option (List Nat))
    (hv : ValidArgs argv) (hlen : (argv.getD 3 []).length ≤ 246)
    (hlib : env.LoadLibrary (L "tunnel.dll") ≠ 0)
    (hproc : env.GetProcAddress (env.LoadLibrary (L "tunnel.dll")) "WireGuardTunnelService" = 0) :
    (run env argv files).1 = Outcome.exit 3 ∧
    steps (run env argv files).2.trace =
      [Call.SetCurrentDirectory (argv.getD 2 []),
       Call.DeleteFile (logText (argv.getD 3 [])),
       Call.srv_log (L "[network-configuration-service] [INFO] Service for "),
       Call.srv_log (argv.getD 3 []),
       Call.srv_log (L "\r\n"),
       Call.srv_log (L "[network-configuration-service] [INFO] Running in "),
       Call.srv_log (argv.getD 2 []),
       Call.srv_log (L "\r\n"),
       Call.srv_log (L "[network-configuration-service] [INFO] Opening tunnel.dll\r\n"),
       Call.LoadLibrary (L "tunnel.dll"),
       Call.srv_log (L "[network-configuration-service] [INFO] Looking up procedure\r\n"),
       Call.GetProcAddress (env.LoadLibrary (L "tunnel.dll")) "WireGuardTunnelService",
       Call.srv_log
         (L "[network-configuration-service] [INFO] No procedure found! This should be impossible\r\n")] := by
  rw [run_accepted env argv files hv hlen, service_noExport env _ _ hlib hproc]
  refine ⟨rfl, ?_⟩
  simp only [steps_srv_log, steps_emit _ _ (rfl : isFileCall (Call.LoadLibrary _) = false),
    steps_emit _ _ (rfl : isFileCall (Call.GetProcAddress _ _) = false),
    steps_banner, steps_prepared]
  rfl

/-- The calls of a run that reaches the tunnel procedure. -/
theorem steps_run_call (env : Env) (argv : List WStr) (files : WStr → Option (List Nat))
    (hv : ValidArgs argv) (hlen : (argv.getD 3 []).length ≤ 233)
    (hlib : env.LoadLibrary (L "tunnel.dll") ≠ 0)
    (hproc : env.GetProcAddress (env.LoadLibrary (L "tunnel.dll")) "WireGuardTunnelService" ≠ 0) :
    (run env argv files).1 = Outcome.exit 0 ∧
    steps (run env argv files).2.trace =
      [Call.SetCurrentDirectory (argv.getD 2 []),
       Call.DeleteFile (logText (argv.getD 3 [])),
       Call.srv_log (L "[network-configuration-service] [INFO] Service for "),
       Call.srv_log (argv.getD 3 []),
       Call.srv_log (L "\r\n"),
       Call.srv_log (L "[network-configuration-service] [INFO] Running in "),
       Call.srv_log (argv.getD 2 []),
       Call.srv_log (L "\r\n"),
       Call.srv_log (L "[network-configuration-service] [INFO] Opening tunnel.dll\r\n"),
       Call.LoadLibrary (L "tunnel.dll"),
       Call.srv_log (L "[network-configuration-service] [INFO] Looking up procedure\r\n"),
       Call.GetProcAddress (env.LoadLibrary (L "tunnel.dll")) "WireGuardTunnelService",
       Call.srv_log (L "[network-configuration-service] [INFO] Starting tunnel\r\n"),
       Call.tunnel_proc
         (env.GetProcAddress (env.LoadLibrary (L "tunnel.dll")) "WireGuardTunnelService")
         (confText (argv.getD 3 []))
         (env.tunnel_proc
           (env.GetProcAddress (env.LoadLibrary (L "tunnel.dll")) "WireGuardTunnelService")
           (confText (argv.getD 3 []))),
       Call.srv_log (L "[network-configuration-service] [INFO] Normal tunnel exit\r\n")] := by
  rw [run_accepted env argv files hv (by omega), service_call env _ _ hlib hproc hlen]
  refine ⟨rfl, ?_⟩
  simp only [steps_srv_log, steps_emit _ _ (rfl : isFileCall (Call.LoadLibrary _) = false),
    steps_emit _ _ (rfl : isFileCall (Call.GetProcAddress _ _) = false),
    steps_emit _ _ (rfl : isFileCall (Call.tunnel_proc _ _ _) = false),
    steps_banner, steps_prepared]
  rfl

/-- The calls of a run that loads the library and resolves the export, but whose
identifier overflows `wcstr`. -/
theorem steps_run_overflow (env : Env) (argv : List WStr) (files : WStr → Option (List Nat))
    (hv : ValidArgs argv) (hlen : (argv.getD 3 []).length ≤ 246)
    (hlen2 : 233 < (argv.getD 3 []).length)
    (hlib : env.LoadLibrary (L "tunnel.dll") ≠ 0)
    (hproc : env.GetProcAddress (env.LoadLibrary (L "tunnel.dll")) "WireGuardTunnelService" ≠ 0) :
    (run env argv files).1 = Outcome.invalid_parameter ∧
    steps (run env argv files).2.trace =
      [Call.SetCurrentDirectory (argv.getD 2 []),
       Call.DeleteFile (logText (argv.getD 3 [])),
       Call.srv_log (L "[network-configuration-service] [INFO] Service for "),
       Call.srv_log (argv.getD 3 []),
       Call.srv_log (L "\r\n"),
       Call.srv_log (L "[network-configuration-service] [INFO] Running in "),
       Call.srv_log (argv.getD 2 []),
       Call.srv_log (L "\r\n"),
       Call.srv_log (L "[network-configuration-service] [INFO] Opening tunnel.dll\r\n"),
       Call.LoadLibrary (L "tunnel.dll"),
       Call.srv_log (L "[network-configuration-service] [INFO] Looking up procedure\r\n"),
       Call.GetProcAddress (env.LoadLibrary (L "tunnel.dll")) "WireGuardTunnelService"] := by
  rw [run_accepted env argv files hv hlen, service_overflow env _ _ hlib hproc hlen2]
  refine ⟨rfl, ?_⟩
  simp only [steps_srv_log, steps_emit _ _ (rfl : isFileCall (Call.LoadLibrary _) = false),
    steps_emit _ _ (rfl : isFileCall (Call.GetProcAddress _ _) = false),
    steps_banner, steps_prepared]
  rfl

theorem argvOfLength_valid (n : Nat) : ValidArgs (argvOfLength n) := by
  refine ⟨rfl, ?_⟩
  show lstrcmpi (L "/service") (L "/service") = 0
  decide

theorem argvOfLength_identifier (n : Nat) : ((argvOfLength n).getD 3 []).length = n := by
  show (List.replicate n 97).length = n
  exact List.length_replicate _ _

theorem argvHost1_valid : ValidArgs argvHost1 := ⟨rfl, by decide⟩

/-! ### Properties kept along a run -/

theorem logged_append (a b : List Call) : logged (a ++ b) = logged a ++ logged b :=
  List.filterMap_append _ _ _

theorem written_append (a b : List Call) : written (a ++ b) = written a ++ written b :=
  List.filterMap_append _ _ _

/-- A property kept by every `srv_log` call is kept by the seven calls of lines 79-85. -/
theorem banner_preserves (P : State → Prop) (env : Env) (argv2 argv3 : WStr) (s : State)
    (hlog : ∀ txt s, P s → P (srv_log env txt s)) (h : P s) :
    P (banner env argv2 argv3 s) := by
  unfold banner
  exact hlog _ _ (hlog _ _ (hlog _ _ (hlog _ _ (hlog _ _ (hlog _ _ (hlog _ _ h))))))

/-- A property kept by every `srv_log` call and by every call into the loader or the
library is kept by lines 87-109. -/
theorem service_preserves (P : State → Prop) (env : Env) (argv3 : WStr) (s : State)
    (hlog : ∀ txt s, P s → P (srv_log env txt s))
    (hemit : ∀ c s, isLoaderCall c = true → P s → P (emit c s)) (h : P s) :
    P (service env argv3 s).2 := by
  by_cases hlib : env.LoadLibrary (L "tunnel.dll") = 0
  · rw [service_noLibrary env argv3 s hlib]
    exact hlog _ _ (hemit _ _ rfl h)
  · by_cases hproc :
      env.GetProcAddress (env.LoadLibrary (L "tunnel.dll")) "WireGuardTunnelService" = 0
    · rw [service_noExport env argv3 s hlib hproc]
      exact hlog _ _ (hemit _ _ rfl (hlog _ _ (hemit _ _ rfl h)))
    · by_cases hlen : argv3.length ≤ 233
      · rw [service_call env argv3 s hlib hproc hlen]
        exact hlog _ _ (hemit _ _ rfl (hlog _ _ (hemit _ _ rfl (hlog _ _ (hemit _ _ rfl h)))))
      · rw [service_overflow env argv3 s hlib hproc (by omega)]
        exact hemit _ _ rfl (hlog _ _ (hemit _ _ rfl h))

/-- The first successful `srv_log` on an absent file creates it with the header. -/
theorem srv_log_absent (env : Env) (txt : WStr) (s : State)
    (hopen : ∀ n, env.CreateFile n = true) (h : LogAbsent s) :
    LogIntact (srv_log env txt s) := by
  obtain ⟨hf, hw, hl⟩ := h
  rw [srv_log_new env txt s (hopen _) hf]
  refine ⟨?_, ?_⟩
  · simp only [Function.update_same, logged_append, hl]
    simp [logged]
  · simp only [written_append, logged_append, hw, hl]
    simp [written, logged]

/-- A successful `srv_log` on an intact log appends its message and nothing else. -/
theorem srv_log_intact (env : Env) (txt : WStr) (s : State)
    (hopen : ∀ n, env.CreateFile n = true) (h : LogIntact s) :
    LogIntact (srv_log env txt s) := by
  obtain ⟨hf, hw⟩ := h
  rw [srv_log_old env txt s _ (hopen _) hf]
  refine ⟨?_, ?_⟩
  · simp only [Function.update_same, logged_append]
    simp [logged]
  · simp only [written_append, logged_append, hw]
    simp [written, logged]

/-- Calls into the loader or the library leave the log as it is. -/
theorem emit_intact (c : Call) (s : State) (hc : isLoaderCall c = true) (h : LogIntact s) :
    LogIntact (emit c s) := by
  obtain ⟨hf, hw⟩ := h
  have h1 : logged (emit c s).trace = logged s.trace := by
    cases c <;> simp [isLoaderCall] at hc <;> simp [emit, logged]
  have h2 : written (emit c s).trace = written s.trace := by
    cases c <;> simp [isLoaderCall] at hc <;> simp [emit, written]
  exact ⟨by rw [h1]; exact hf, by rw [h1, h2]; exact hw⟩

/-- After a successful `DeleteFile` there is no log file, whatever was there before. -/
theorem prepared_absent (env : Env) (argv2 argv3 : WStr) (files : WStr → Option (List Nat))
    (hdel : env.DeleteFile = true) : LogAbsent (prepared env argv2 argv3 files) := by
  simp [LogAbsent, prepared, DeleteFile, emit, start, hdel, written, logged]

theorem emit_LOGPATH (c : Call) (s : State) : (emit c s).LOGPATH = s.LOGPATH := rfl

/-- Filling of `LOGPATH` happens once, on line 76: the rest of the run keeps its value. -/
theorem run_LOGPATH (env : Env) (argv : List WStr) (files : WStr → Option (List Nat))
    (hv : ValidArgs argv) (hlen : (argv.getD 3 []).length ≤ 246) :
    (run env argv files).2.LOGPATH = logText (argv.getD 3 []) := by
  rw [run_accepted env argv files hv hlen]
  apply service_preserves (fun s => s.LOGPATH = logText (argv.getD 3 []))
  · intro txt s h; rw [srv_log_LOGPATH]; exact h
  · intro c s _ h; exact h
  · rw [banner_LOGPATH, prepared_LOGPATH]

/-- With a working file system, the log is intact at the end of an accepted run. -/
theorem run_intact (env : Env) (argv : List WStr) (files : WStr → Option (List Nat))
    (hv : ValidArgs argv) (hlen : (argv.getD 3 []).length ≤ 246)
    (hdel : env.DeleteFile = true) (hopen : ∀ n, env.CreateFile n = true) :
    LogIntact (run env argv files).2 := by
  rw [run_accepted env argv files hv hlen]
  apply service_preserves LogIntact
  · intro txt s h; exact srv_log_intact env txt s hopen h
  · intro c s hc h; exact emit_intact c s hc h
  · unfold banner
    have h0 := srv_log_absent env
      (L "[network-configuration-service] [INFO] Service for ") _ hopen
      (prepared_absent env (argv.getD 2 []) (argv.getD 3 []) files hdel)
    exact srv_log_intact env _ _ hopen (srv_log_intact env _ _ hopen
      (srv_log_intact env _ _ hopen (srv_log_intact env _ _ hopen
        (srv_log_intact env _ _ hopen (srv_log_intact env _ _ hopen h0)))))

/-! ### Independence from the log file -/

theorem loader_emit (c : Call) (s : State) :
    (emit c s).trace.filter isLoaderCall =
      s.trace.filter isLoaderCall ++ [c].filter isLoaderCall := by
  simp [emit]

/-- Lines 87-109 make the same loader calls and end the same way in two environments
that answer `LoadLibrary`, `GetProcAddress` and the tunnel procedure alike, from two
states that have seen the same loader calls. -/
theorem service_congr (env1 env2 : Env) (argv3 : WStr) (s1 s2 : State)
    (hL : env1.LoadLibrary = env2.LoadLibrary)
    (hG : env1.GetProcAddress = env2.GetProcAddress)
    (hT : env1.tunnel_proc = env2.tunnel_proc)
    (h : s1.trace.filter isLoaderCall = s2.trace.filter isLoaderCall) :
    (service env1 argv3 s1).1 = (service env2 argv3 s2).1 ∧
    (service env1 argv3 s1).2.trace.filter isLoaderCall =
      (service env2 argv3 s2).2.trace.filter isLoaderCall := by
  by_cases hlib : env1.LoadLibrary (L "tunnel.dll") = 0
  · have hlib2 : env2.LoadLibrary (L "tunnel.dll") = 0 := by rw [← hL]; exact hlib
    rw [service_noLibrary env1 argv3 s1 hlib, service_noLibrary env2 argv3 s2 hlib2]
    simp only [loader_srv_log, loader_emit, h]
    constructor <;> first | rfl | trivial
  · have hlib2 : env2.LoadLibrary (L "tunnel.dll") ≠ 0 := by rw [← hL]; exact hlib
    by_cases hproc :
      env1.GetProcAddress (env1.LoadLibrary (L "tunnel.dll")) "WireGuardTunnelService" = 0
    · have hproc2 :
          env2.GetProcAddress (env2.LoadLibrary (L "tunnel.dll")) "WireGuardTunnelService" = 0 := by
        rw [← hL, ← hG]; exact hproc
      rw [service_noExport env1 argv3 s1 hlib hproc,
        service_noExport env2 argv3 s2 hlib2 hproc2]
      simp only [loader_srv_log, loader_emit, h, ← hL]
      constructor <;> first | rfl | trivial
    · have hproc2 :
          env2.GetProcAddress (env2.LoadLibrary (L "tunnel.dll")) "WireGuardTunnelService" ≠ 0 := by
        rw [← hL, ← hG]; exact hproc
      by_cases hlen : argv3.length ≤ 233
      · rw [service_call env1 argv3 s1 hlib hproc hlen,
          service_call env2 argv3 s2 hlib2 hproc2 hlen]
        simp only [loader_srv_log, loader_emit, h, ← hL, ← hG, ← hT]
        constructor <;> first | rfl | trivial
      · rw [service_overflow env1 argv3 s1 hlib hproc (by omega),
          service_overflow env2 argv3 s2 hlib2 hproc2 (by omega)]
        simp only [loader_srv_log, loader_emit, h, ← hL]
        constructor <;> first | rfl | trivial

theorem loader_banner (env : Env) (argv2 argv3 : WStr) (s : State) :
    (banner env argv2 argv3 s).trace.filter isLoaderCall = s.trace.filter isLoaderCall := by
  simp only [banner, loader_srv_log]

theorem loader_prepared (env : Env) (argv2 argv3 : WStr) (files : WStr → Option (List Nat)) :
    (prepared env argv2 argv3 files).trace.filter isLoaderCall = [] := by
  rw [prepared_trace]; rfl

theorem oneFile_self (path : WStr) : oneFile path path = some [1, 2, 3] := by
  simp [oneFile]

/-- A file that is there when the run stops on line 76 is left as it was. -/
theorem stale_file (files : WStr → Option (List Nat)) (dir path : WStr)
    (h : files path = some [1, 2, 3]) :
    (emit (Call.SetCurrentDirectory dir) (start files)).files path ≠
      some ([0xFF, 0xFE] ++
        (logged (emit (Call.SetCurrentDirectory dir) (start files)).trace).flatMap utf16le) := by
  show files path ≠ _
  rw [h]
  simp [emit, start, logged]

/-- A run that stops on line 76 leaves a file that was there as it was. -/
theorem overflow_keeps_file (env : Env) (n : Nat) (path : WStr) (hn : 246 < n) :
    (run env (argvOfLength n) (oneFile path)).2.files path = some [1, 2, 3] ∧
    (run env (argvOfLength n) (oneFile path)).2.files path ≠
      some ([0xFF, 0xFE] ++
        (logged (run env (argvOfLength n) (oneFile path)).2.trace).flatMap utf16le) := by
  rw [run_overflow env (argvOfLength n) (oneFile path) (argvOfLength_valid n)
    (by rw [argvOfLength_identifier]; exact hn)]
  exact ⟨oneFile_self path, stale_file _ _ _ (oneFile_self path)⟩

/-- Every `CreateFile` call is made on the path held in `LOGPATH`. -/
theorem srv_log_opens_at (env : Env) (txt : WStr) (s : State) (path : WStr)
    (h : s.LOGPATH = path ∧ ∀ p, Call.CreateFile p ∈ s.trace → p = path) :
    (srv_log env txt s).LOGPATH = path ∧
    ∀ p, Call.CreateFile p ∈ (srv_log env txt s).trace → p = path := by
  refine ⟨by rw [srv_log_LOGPATH]; exact h.1, ?_⟩
  intro p hp
  rcases srv_log_cases env s with hc | ⟨hc, hf⟩ | ⟨hc, c, hf⟩
  · rw [srv_log_fail env txt s hc] at hp
    simp at hp
    rcases hp with hp | hp
    · exact h.2 p hp
    · rw [hp]; exact h.1
  · rw [srv_log_new env txt s hc hf] at hp
    simp at hp
    rcases hp with hp | hp
    · exact h.2 p hp
    · rw [hp]; exact h.1
  · rw [srv_log_old env txt s c hc hf] at hp
    simp at hp
    rcases hp with hp | hp
    · exact h.2 p hp
    · rw [hp]; exact h.1

theorem emit_opens_at (c : Call) (s : State) (path : WStr) (hc : isLoaderCall c = true)
    (h : s.LOGPATH = path ∧ ∀ p, Call.CreateFile p ∈ s.trace → p = path) :
    (emit c s).LOGPATH = path ∧ ∀ p, Call.CreateFile p ∈ (emit c s).trace → p = path := by
  refine ⟨h.1, ?_⟩
  intro p hp
  have hp' : Call.CreateFile p ∈ s.trace ++ [c] := hp
  rw [List.mem_append, List.mem_singleton] at hp'
  rcases hp' with hp' | hp'
  · exact h.2 p hp'
  · rw [← hp'] at hc
    simp [isLoaderCall] at hc

/-- In an accepted run whose identifier fits `LOGPATH`, every open of the log file is
made on `logs\<identifier>.log`. -/
theorem run_opens_at (env : Env) (argv : List WStr) (files : WStr → Option (List Nat))
    (hv : ValidArgs argv) (hlen : (argv.getD 3 []).length ≤ 246) :
    ∀ p, Call.CreateFile p ∈ (run env argv files).2.trace → p = logText (argv.getD 3 []) := by
  have h : (run env argv files).2.LOGPATH = logText (argv.getD 3 []) ∧
      ∀ p, Call.CreateFile p ∈ (run env argv files).2.trace →
        p = logText (argv.getD 3 []) := by
    rw [run_accepted env argv files hv hlen]
    apply service_preserves (fun s => s.LOGPATH = logText (argv.getD 3 []) ∧
      ∀ p, Call.CreateFile p ∈ s.trace → p = logText (argv.getD 3 []))
    · intro txt s h; exact srv_log_opens_at env txt s _ h
    · intro c s hc h; exact emit_opens_at c s _ hc h
    · apply banner_preserves (fun s => s.LOGPATH = logText (argv.getD 3 []) ∧
        ∀ p, Call.CreateFile p ∈ s.trace → p = logText (argv.getD 3 []))
      · intro txt s h; exact srv_log_opens_at env txt s _ h
      · refine ⟨prepared_LOGPATH _ _ _ _, ?_⟩
        intro p hp
        rw [prepared_trace] at hp
        simp at hp
  exact h.2

/-- An accepted run whose identifier fits `LOGPATH` starts with
`SetCurrentDirectory(argv[2])` and `DeleteFile` of the log path. -/
theorem run_accepted_start (env : Env) (argv : List WStr) (files : WStr → Option (List Nat))
    (hv : ValidArgs argv) (hlen : (argv.getD 3 []).length ≤ 246) :
    (steps (run env argv files).2.trace).take 2 =
      [Call.SetCurrentDirectory (argv.getD 2 []),
       Call.DeleteFile (logText (argv.getD 3 []))] := by
  by_cases hlib : env.LoadLibrary (L "tunnel.dll") = 0
  · rw [(steps_run_noLibrary env argv files hv hlen hlib).2]; rfl
  · by_cases hproc :
      env.GetProcAddress (env.LoadLibrary (L "tunnel.dll")) "WireGuardTunnelService" = 0
    · rw [(steps_run_noExport env argv files hv hlen hlib hproc).2]; rfl
    · by_cases hlen2 : (argv.getD 3 []).length ≤ 233
      · rw [(steps_run_call env argv files hv hlen2 hlib hproc).2]; rfl
      · rw [(steps_run_overflow env argv files hv hlen (by omega) hlib hproc).2]; rfl

theorem towlower_of_case (a b : Nat)
    (h : a = b ∨ (65 ≤ a ∧ a ≤ 90 ∧ b = a + 32) ∨ (65 ≤ b ∧ b ≤ 90 ∧ a = b + 32)) :
    towlower a = towlower b := by
  unfold towlower
  rcases h with h | ⟨h1, h2, h3⟩ | ⟨h1, h2, h3⟩
  · rw [h]
  · subst h3
    rw [if_pos ⟨h1, h2⟩, if_neg (by omega)]
  · subst h3
    rw [if_neg (by omega), if_pos ⟨h1, h2⟩]

/-- Spellings that differ only in letter case compare equal under `lstrcmpi`. -/
theorem lstrcmpi_of_sameUpToCase :
    ∀ (a b : WStr), SameUpToCase a b → lstrcmpi a b = 0
  | [], [], _ => rfl
  | [], _ :: _, h => by simp [SameUpToCase] at h
  | _ :: _, [], h => by simp [SameUpToCase] at h
  | a :: as, b :: bs, h => by
    have h' : (a = b ∨ (65 ≤ a ∧ a ≤ 90 ∧ b = a + 32) ∨ (65 ≤ b ∧ b ≤ 90 ∧ a = b + 32)) ∧
        SameUpToCase as bs := by simpa [SameUpToCase] using h
    have ht := towlower_of_case a b h'.1
    unfold lstrcmpi
    rw [ht, if_neg (lt_irrefl _), if_neg (lt_irrefl _)]
    exact lstrcmpi_of_sameUpToCase as bs h'.2

/-- An accepted run does not end with status 1, and its first call is
`SetCurrentDirectory(argv[2])`. -/
theorem run_accepted_first (env : Env) (argv : List WStr) (files : WStr → Option (List Nat))
    (hv : ValidArgs argv) :
    (run env argv files).1 ≠ Outcome.exit 1 ∧
    (steps (run env argv files).2.trace).head? =
      some (Call.SetCurrentDirectory (argv.getD 2 [])) := by
  by_cases hlen : (argv.getD 3 []).length ≤ 246
  · by_cases hlib : env.LoadLibrary (L "tunnel.dll") = 0
    · obtain ⟨h1, h2⟩ := steps_run_noLibrary env argv files hv hlen hlib
      rw [h1, h2]; exact ⟨by decide, rfl⟩
    · by_cases hproc :
        env.GetProcAddress (env.LoadLibrary (L "tunnel.dll")) "WireGuardTunnelService" = 0
      · obtain ⟨h1, h2⟩ := steps_run_noExport env argv files hv hlen hlib hproc
        rw [h1, h2]; exact ⟨by decide, rfl⟩
      · by_cases hlen2 : (argv.getD 3 []).length ≤ 233
        · obtain ⟨h1, h2⟩ := steps_run_call env argv files hv hlen2 hlib hproc
          rw [h1, h2]; exact ⟨by decide, rfl⟩
        · obtain ⟨h1, h2⟩ :=
            steps_run_overflow env argv files hv hlen (by omega) hlib hproc
          rw [h1, h2]; exact ⟨by decide, rfl⟩
  · rw [run_overflow env argv files hv (by omega)]
    exact ⟨by simp, rfl⟩

end Launcher

namespace Invoker

/-! ### The invoker -/

/-- With two arguments after the program name, the first of them is `argv[1]`. -/
theorem head_eq_getD (args : List String) (h : args.length + 1 = 3) :
    args.head? = some (args.getD 0 "") := by
  cases args with
  | nil => simp at h
  | cons a t => simp

/-- C1: teardown (`graal_detach_all_threads_and_tear_down_isolate`) is called exactly
once, and as the last runtime call, in every run in which `graal_create_isolate` was
called and succeeded, whatever the command word is; it is called zero times in every
other run (wrong argument count, or initialization failed). -/
theorem C1_teardown_exactly_once (rt : Runtime) (argv0 : String) (args : List String) :
    (args.length + 1 = 3 ∧ rt.graal_create_isolate = 0 →
      Call.graal_create_isolate ∈ (main rt argv0 args).calls ∧
      (main rt argv0 args).calls.countP isTeardown = 1 ∧
      (main rt argv0 args).calls.getLast? =
        some (Call.graal_detach_all_threads_and_tear_down_isolate rt.thread)) ∧
    (args.length + 1 ≠ 3 ∨ rt.graal_create_isolate ≠ 0 →
      (main rt argv0 args).calls.countP isTeardown = 0) := by
  constructor
  · rintro ⟨hargc, hinit⟩
    unfold main
    rw [if_neg (by simpa using hargc), if_neg (by simpa using hinit)]
    simp only []
    by_cases hup : args.getD 0 "" = "up"
    · rw [if_pos hup]
      by_cases hz : rt.up rt.thread (args.getD 1 "") 0 0 = 0
      · rw [if_pos hz]; simp [isTeardown]
      · rw [if_neg hz]; simp [isTeardown]
    · rw [if_neg hup]
      by_cases hdown : args.getD 0 "" = "down"
      · rw [if_pos hdown]; simp [isTeardown]
      · rw [if_neg hdown]; simp [isTeardown]
  · intro h
    unfold main
    by_cases hargc : args.length + 1 = 3
    · have hinit : rt.graal_create_isolate ≠ 0 := by
        rcases h with h | h
        · exact absurd hargc h
        · exact h
      rw [if_neg (by simpa using hargc), if_pos hinit]
      simp [isTeardown]
    · rw [if_pos hargc]
      simp

/-- Witness of C1 on `program down target.conf` with a runtime that initialises, and on
`program up target.conf` with a runtime that does not. -/
theorem C1_teardown_exactly_once_witness :
    (Call.graal_create_isolate ∈ (main sampleRuntime "program" ["down", "target.conf"]).calls ∧
     (main sampleRuntime "program" ["down", "target.conf"]).calls.countP isTeardown = 1 ∧
     (main sampleRuntime "program" ["down", "target.conf"]).calls.getLast? =
       some (Call.graal_detach_all_threads_and_tear_down_isolate 7)) ∧
    (main failingRuntime "program" ["up", "target.conf"]).calls.countP isTeardown = 0 :=
  ⟨(C1_teardown_exactly_once sampleRuntime "program" ["down", "target.conf"]).1
      ⟨by decide, by decide⟩,
   (C1_teardown_exactly_once failingRuntime "program" ["up", "target.conf"]).2
      (Or.inr (by decide))⟩

/-- C3: with exactly a command word and a target (`argc = 3`) and a nonzero result of
`graal_create_isolate`, the invoker writes "initialization error" to stderr, writes
nothing to stdout, exits with status 1, and its only runtime call is
`graal_create_isolate`: no `up`, `stop`, `get_error_code` or teardown, whatever the
command word is. -/
theorem C3_initialization_failure (rt : Runtime) (argv0 : String) (args : List String)
    (hargc : args.length + 1 = 3) (hfail : rt.graal_create_isolate ≠ 0) :
    (main rt argv0 args).stderr = "initialization error\n" ∧
    (main rt argv0 args).stdout = "" ∧
    (main rt argv0 args).status = 1 ∧
    (main rt argv0 args).calls = [Call.graal_create_isolate] ∧
    (main rt argv0 args).calls.countP isInvoke = 0 ∧
    (main rt argv0 args).calls.countP isErrorCode = 0 ∧
    (main rt argv0 args).calls.countP isTeardown = 0 := by
  unfold main
  rw [if_neg (by simpa using hargc), if_pos hfail]
  simp [isInvoke, isErrorCode, isTeardown]

/-- Witness of C3 on `program up target.conf` with a runtime that fails to initialise. -/
theorem C3_initialization_failure_witness :
    (main failingRuntime "program" ["up", "target.conf"]).stderr = "initialization error\n" ∧
    (main failingRuntime "program" ["up", "target.conf"]).stdout = "" ∧
    (main failingRuntime "program" ["up", "target.conf"]).status = 1 ∧
    (main failingRuntime "program" ["up", "target.conf"]).calls = [Call.graal_create_isolate] ∧
    (main failingRuntime "program" ["up", "target.conf"]).calls.countP isInvoke = 0 ∧
    (main failingRuntime "program" ["up", "target.conf"]).calls.countP isErrorCode = 0 ∧
    (main failingRuntime "program" ["up", "target.conf"]).calls.countP isTeardown = 0 :=
  C3_initialization_failure failingRuntime "program" ["up", "target.conf"]
    (by decide) (by decide)

/-- C5, as stated, fails: `program status wg.conf` with a runtime that does not
initialise has a first argument that is neither `up` nor `down`, yet stderr holds
"initialization error" and not the usage text. -/
theorem C5_counterexample :
    ["status", "wg.conf"].head? ≠ some "up" ∧
    ["status", "wg.conf"].head? ≠ some "down" ∧
    (main failingRuntime "program" ["status", "wg.conf"]).stderr = "initialization error\n" ∧
    (main failingRuntime "program" ["status", "wg.conf"]).stderr ≠ usage "program" := by
  decide

/-- C5, amended: when the first argument is neither `up` nor `down`, the invoker never
calls `up` or `stop` and exits with status 1.  If the argument count is wrong it prints
the usage text and makes no runtime call; if initialization succeeds it prints the usage
text and tears the context down as its only other runtime call; if initialization fails
it prints "initialization error" instead of the usage text, and there is no context to
tear down. -/
theorem C5_unknown_command (rt : Runtime) (argv0 : String) (args : List String)
    (hup : args.head? ≠ some "up") (hdown : args.head? ≠ some "down") :
    (main rt argv0 args).calls.countP isInvoke = 0 ∧
    (main rt argv0 args).status = 1 ∧
    (args.length + 1 ≠ 3 →
      (main rt argv0 args).stderr = usage argv0 ∧ (main rt argv0 args).calls = []) ∧
    (args.length + 1 = 3 ∧ rt.graal_create_isolate = 0 →
      (main rt argv0 args).stderr = usage argv0 ∧
      (main rt argv0 args).calls =
        [Call.graal_create_isolate,
         Call.graal_detach_all_threads_and_tear_down_isolate rt.thread]) ∧
    (args.length + 1 = 3 ∧ rt.graal_create_isolate ≠ 0 →
      (main rt argv0 args).stderr = "initialization error\n" ∧
      (main rt argv0 args).calls = [Call.graal_create_isolate]) := by
  by_cases hargc : args.length + 1 = 3
  · have h1 : ¬ args.getD 0 "" = "up" := by
      intro h; apply hup; rw [head_eq_getD args hargc, h]
    have h2 : ¬ args.getD 0 "" = "down" := by
      intro h; apply hdown; rw [head_eq_getD args hargc, h]
    by_cases hinit : rt.graal_create_isolate = 0
    · unfold main
      rw [if_neg (by simpa using hargc), if_neg (by simpa using hinit)]
      simp only []
      rw [if_neg h1, if_neg h2]
      simp [hinit, hargc, isInvoke]
    · unfold main
      rw [if_neg (by simpa using hargc), if_pos hinit]
      simp [hinit, hargc, isInvoke]
  · unfold main
    rw [if_pos hargc]
    simp [hargc]

/-- Witness of C5 (amended) on `program status wg.conf` with a runtime that
initialises. -/
theorem C5_unknown_command_witness :
    (main sampleRuntime "program" ["status", "wg.conf"]).stderr = usage "program" ∧
    (main sampleRuntime "program" ["status", "wg.conf"]).calls =
      [Call.graal_create_isolate,
       Call.graal_detach_all_threads_and_tear_down_isolate 7] :=
  (C5_unknown_command sampleRuntime "program" ["status", "wg.conf"]
    (by decide) (by decide)).2.2.2.1 ⟨by decide, by decide⟩

/-- C7: in a run with first argument `up`, two arguments after the program name, and a
successful initialization, `up` is called once with the target `argv[2]` and options
0, 0, directly after `graal_create_isolate`, and its handle is printed.  With a nonzero
handle the next and last runtime call is teardown; with a zero handle the next runtime
call is `get_error_code`, whose result is printed, followed by teardown.  The exit
status is 0 in both cases. -/
theorem C7_up_branch (rt : Runtime) (argv0 : String) (args : List String)
    (hup : args.head? = some "up") (hargc : args.length + 1 = 3)
    (hinit : rt.graal_create_isolate = 0) :
    (rt.up rt.thread (args.getD 1 "") 0 0 ≠ 0 →
      (main rt argv0 args).calls =
        [Call.graal_create_isolate, Call.up rt.thread (args.getD 1 "") 0 0,
         Call.graal_detach_all_threads_and_tear_down_isolate rt.thread] ∧
      (main rt argv0 args).stdout =
        "Handle: " ++ toString (rt.up rt.thread (args.getD 1 "") 0 0) ++ "\n") ∧
    (rt.up rt.thread (args.getD 1 "") 0 0 = 0 →
      (main rt argv0 args).calls =
        [Call.graal_create_isolate, Call.up rt.thread (args.getD 1 "") 0 0,
         Call.get_error_code rt.thread,
         Call.graal_detach_all_threads_and_tear_down_isolate rt.thread] ∧
      (main rt argv0 args).stdout =
        "Handle: " ++ toString (0 : Int) ++ "\n" ++
          ("Code: " ++ toString (rt.get_error_code rt.thread) ++ "\n")) ∧
    (main rt argv0 args).calls.countP isInvoke = 1 ∧
    ((main rt argv0 args).calls.countP isErrorCode = 1 ↔
      rt.up rt.thread (args.getD 1 "") 0 0 = 0) ∧
    (main rt argv0 args).status = 0 := by
  have h1 : args.getD 0 "" = "up" := by
    rw [head_eq_getD args hargc] at hup
    exact Option.some.inj hup
  unfold main
  rw [if_neg (by simpa using hargc), if_neg (by simpa using hinit)]
  simp only []
  rw [if_pos h1]
  by_cases hz : rt.up rt.thread (args.getD 1 "") 0 0 = 0
  · rw [if_pos hz]
    simp only [List.getD_eq_getElem?_getD] at hz
    simp [hz, isInvoke, isErrorCode]
  · rw [if_neg hz]
    simp only [List.getD_eq_getElem?_getD] at hz
    simp [hz, isInvoke, isErrorCode]

/-- Witness of C7 on `program up target.conf`, where `up` returns the zero handle. -/
theorem C7_up_branch_witness :
    (main sampleRuntime "program" ["up", "target.conf"]).calls =
      [Call.graal_create_isolate, Call.up 7 "target.conf" 0 0,
       Call.get_error_code 7,
       Call.graal_detach_all_threads_and_tear_down_isolate 7] ∧
    (main sampleRuntime "program" ["up", "target.conf"]).status = 0 :=
  ⟨((C7_up_branch sampleRuntime "program" ["up", "target.conf"]
      (by decide) (by decide) (by decide)).2.1 (by decide)).1,
   (C7_up_branch sampleRuntime "program" ["up", "target.conf"]
      (by decide) (by decide) (by decide)).2.2.2.2⟩

end Invoker

namespace Launcher

/-! ### The launcher -/

/-- C4: for every argument vector with `argc != 4`, or with `argc = 4` and `argv[1]`
different from `/service` under the case-insensitive comparison, `_tmain` returns 1
having made no call at all (no `SetCurrentDirectory`, `DeleteFile`, `CreateFile`,
`WriteFile` or `LoadLibrary`) and leaving every file as it was.  Conversely, with
`argc = 4`, every spelling of `/service` that differs only in letter case passes the
check: the run does not return 1 and starts with `SetCurrentDirectory(argv[2])`. -/
theorem C4_bad_usage (env : Env) (argv : List WStr) (files : WStr → Option (List Nat)) :
    (argv.length ≠ 4 ∨
        (argv.length = 4 ∧ lstrcmpi (argv.getD 1 []) (L "/service") ≠ 0) →
      (run env argv files).1 = Outcome.exit 1 ∧
      (run env argv files).2.trace = [] ∧
      (run env argv files).2.files = files) ∧
    (argv.length = 4 ∧ SameUpToCase (argv.getD 1 []) (L "/service") →
      (run env argv files).1 ≠ Outcome.exit 1 ∧
      (steps (run env argv files).2.trace).head? =
        some (Call.SetCurrentDirectory (argv.getD 2 []))) := by
  constructor
  · intro h
    have hv : ¬ ValidArgs argv := by
      rintro ⟨h1, h2⟩
      rcases h with h | ⟨_, h⟩
      · exact h h1
      · exact h h2
    rw [run_rejected env argv files hv]
    exact ⟨rfl, rfl, rfl⟩
  · rintro ⟨h1, h2⟩
    exact run_accepted_first env argv files ⟨h1, lstrcmpi_of_sameUpToCase _ _ h2⟩

/-- Witness of C4: `program /run C:\\app host1` is rejected without a call, and
`program /SERVICE C:\\app host1` is accepted. -/
theorem C4_bad_usage_witness :
    ((run envNoLibrary [L "program", L "/run", L "C:\\app", L "host1"] noFiles).1 =
        Outcome.exit 1 ∧
     (run envNoLibrary [L "program", L "/run", L "C:\\app", L "host1"] noFiles).2.trace = [] ∧
     (run envNoLibrary [L "program", L "/run", L "C:\\app", L "host1"] noFiles).2.files =
        noFiles) ∧
    ((run envNoLibrary [L "program", L "/SERVICE", L "C:\\app", L "host1"] noFiles).1 ≠
        Outcome.exit 1 ∧
     (steps (run envNoLibrary [L "program", L "/SERVICE", L "C:\\app", L "host1"]
        noFiles).2.trace).head? = some (Call.SetCurrentDirectory (L "C:\\app"))) :=
  ⟨(C4_bad_usage envNoLibrary [L "program", L "/run", L "C:\\app", L "host1"] noFiles).1
      (Or.inr ⟨rfl, by decide⟩),
   (C4_bad_usage envNoLibrary [L "program", L "/SERVICE", L "C:\\app", L "host1"] noFiles).2
      ⟨rfl, by decide⟩⟩

/-- C2, as stated, fails: on a valid command line whose identifier has 247 characters,
in an environment without `tunnel.dll`, the run does not end with status 2: it ends in
the invalid-parameter handler of `swprintf_s` on line 76, before `LoadLibrary` is called
and before any message is passed to `srv_log`. -/
theorem C2_counterexample :
    ValidArgs (argvOfLength 247) ∧
    envNoLibrary.LoadLibrary (L "tunnel.dll") = 0 ∧
    (run envNoLibrary (argvOfLength 247) noFiles).1 = Outcome.invalid_parameter ∧
    (run envNoLibrary (argvOfLength 247) noFiles).1 ≠ Outcome.exit 2 ∧
    logged (run envNoLibrary (argvOfLength 247) noFiles).2.trace = [] := by
  have h := run_overflow envNoLibrary (argvOfLength 247) noFiles (argvOfLength_valid 247)
    (by rw [argvOfLength_identifier]; decide)
  rw [h]
  exact ⟨argvOfLength_valid 247, rfl, rfl, by decide, rfl⟩

/-- C2, amended: a rejected argument vector ends with status 1.  For every valid argument
vector whose identifier has at most 246 characters (so that the log path fits
`LOGPATH`): if `tunnel.dll` cannot be loaded the exit status is exactly 2, `LoadLibrary`
is the only call into the loader or the library (no `GetProcAddress`, no tunnel
procedure), and the last message passed to `srv_log` is the one saying "No tunnel.dll
found in PATH"; if the library loads but has no export named `WireGuardTunnelService`
the exit status is exactly 3 and the tunnel procedure is not called; if both succeed and
the identifier has at most 233 characters (so that the configuration path fits `wcstr`)
the exit status is 0. -/
theorem C2_exit_status (env : Env) (argv : List WStr) (files : WStr → Option (List Nat)) :
    (¬ ValidArgs argv → (run env argv files).1 = Outcome.exit 1) ∧
    (ValidArgs argv → (argv.getD 3 []).length ≤ 246 →
      (env.LoadLibrary (L "tunnel.dll") = 0 →
        (run env argv files).1 = Outcome.exit 2 ∧
        (run env argv files).2.trace.filter isLoaderCall =
          [Call.LoadLibrary (L "tunnel.dll")] ∧
        (logged (run env argv files).2.trace).getLast? =
          some (L "[network-configuration-service] [ERROR] " ++
                  L "No tunnel.dll found in PATH" ++ L "\r\n")) ∧
      (env.LoadLibrary (L "tunnel.dll") ≠ 0 ∧
          env.GetProcAddress (env.LoadLibrary (L "tunnel.dll")) "WireGuardTunnelService" = 0 →
        (run env argv files).1 = Outcome.exit 3 ∧
        (run env argv files).2.trace.filter isLoaderCall =
          [Call.LoadLibrary (L "tunnel.dll"),
           Call.GetProcAddress (env.LoadLibrary (L "tunnel.dll")) "WireGuardTunnelService"]) ∧
      (env.LoadLibrary (L "tunnel.dll") ≠ 0 ∧
          env.GetProcAddress (env.LoadLibrary (L "tunnel.dll")) "WireGuardTunnelService" ≠ 0 ∧
          (argv.getD 3 []).length ≤ 233 →
        (run env argv files).1 = Outcome.exit 0)) := by
  refine ⟨fun hv => by rw [run_rejected env argv files hv], fun hv hlen => ⟨?_, ?_, ?_⟩⟩
  · intro hlib
    obtain ⟨h1, h2⟩ := steps_run_noLibrary env argv files hv hlen hlib
    refine ⟨h1, ?_, ?_⟩
    · rw [← loader_steps, h2]; rfl
    · rw [← logged_steps, h2]; rfl
  · rintro ⟨hlib, hproc⟩
    obtain ⟨h1, h2⟩ := steps_run_noExport env argv files hv hlen hlib hproc
    refine ⟨h1, ?_⟩
    rw [← loader_steps, h2]; rfl
  · rintro ⟨hlib, hproc, hlen2⟩
    exact (steps_run_call env argv files hv hlen2 hlib hproc).1

/-- Witness of C2 (amended): `program /service C:\\app host1` without `tunnel.dll`. -/
theorem C2_exit_status_witness :
    (run envNoLibrary argvHost1 noFiles).1 = Outcome.exit 2 ∧
    (run envNoLibrary argvHost1 noFiles).2.trace.filter isLoaderCall =
      [Call.LoadLibrary (L "tunnel.dll")] ∧
    (logged (run envNoLibrary argvHost1 noFiles).2.trace).getLast? =
      some (L "[network-configuration-service] [ERROR] " ++
              L "No tunnel.dll found in PATH" ++ L "\r\n") :=
  ((C2_exit_status envNoLibrary argvHost1 noFiles).2 argvHost1_valid (by decide)).1 rfl

/-- C6, as stated, fails: on a valid command line whose identifier has 247 characters,
with a three-byte file already at `logs\<identifier>.log`, the run ends on line 76
before `DeleteFile`; afterwards the file still holds its three old bytes, not the
header followed by the messages of the run. -/
theorem C6_counterexample :
    ValidArgs (argvOfLength 247) ∧
    (run envTunnel (argvOfLength 247) (oneFile (logText (List.replicate 247 97)))).2.files
        (logText (List.replicate 247 97)) = some [1, 2, 3] ∧
    (run envTunnel (argvOfLength 247) (oneFile (logText (List.replicate 247 97)))).2.files
        (logText (List.replicate 247 97)) ≠
      some ([0xFF, 0xFE] ++
        (logged (run envTunnel (argvOfLength 247)
          (oneFile (logText (List.replicate 247 97)))).2.trace).flatMap utf16le) := by
  exact ⟨argvOfLength_valid 247,
    overflow_keeps_file envTunnel 247 (logText (List.replicate 247 97)) (by decide)⟩

/-- C6, amended: for every valid argument vector whose identifier has at most 246
characters, and every initial file system, when `DeleteFile` and every `CreateFile`
succeed: after the run the file at `logs\<identifier>.log` consists of the two bytes
FF FE followed by the UTF-16LE encoding, without terminators, of the messages passed to
`srv_log` during the run, in call order, and of nothing else; and the `WriteFile` calls
of the run are the header, once and first, followed by one payload per message. -/
theorem C6_log_content (env : Env) (argv : List WStr) (files : WStr → Option (List Nat))
    (hv : ValidArgs argv) (hlen : (argv.getD 3 []).length ≤ 246)
    (hdel : env.DeleteFile = true) (hopen : ∀ n, env.CreateFile n = true) :
    (run env argv files).2.files (L "logs\\" ++ argv.getD 3 [] ++ L ".log") =
      some ([0xFF, 0xFE] ++ (logged (run env argv files).2.trace).flatMap utf16le) ∧
    written (run env argv files).2.trace =
      [0xFF, 0xFE] :: (logged (run env argv files).2.trace).map utf16le := by
  have h := run_intact env argv files hv hlen hdel hopen
  have hp := run_LOGPATH env argv files hv hlen
  unfold LogIntact at h
  rw [hp] at h
  exact h

/-- Witness of C6 (amended): `program /service C:\\app host1` over a file system in
which the log file already exists. -/
theorem C6_log_content_witness :
    (run envTunnel argvHost1 (oneFile (logText (L "host1")))).2.files
        (L "logs\\" ++ argvHost1.getD 3 [] ++ L ".log") =
      some ([0xFF, 0xFE] ++
        (logged (run envTunnel argvHost1
          (oneFile (logText (L "host1")))).2.trace).flatMap utf16le) ∧
    written (run envTunnel argvHost1 (oneFile (logText (L "host1")))).2.trace =
      [0xFF, 0xFE] ::
        (logged (run envTunnel argvHost1
          (oneFile (logText (L "host1")))).2.trace).map utf16le :=
  C6_log_content envTunnel argvHost1 (oneFile (logText (L "host1"))) argvHost1_valid
    (by decide) rfl (fun _ => rfl)

/-- C8, as stated, fails: on a valid command line whose identifier has 300 characters,
`LOGPATH` never holds `logs\<identifier>.log` (it is still empty when the run stops in
the invalid-parameter handler on line 76), and no configuration path reaches the tunnel
procedure, although library and export are there. -/
theorem C8_counterexample :
    ValidArgs (argvOfLength 300) ∧
    (run envTunnel (argvOfLength 300) noFiles).1 = Outcome.invalid_parameter ∧
    (run envTunnel (argvOfLength 300) noFiles).2.LOGPATH = [] ∧
    (run envTunnel (argvOfLength 300) noFiles).2.LOGPATH ≠
      L "logs\\" ++ (argvOfLength 300).getD 3 [] ++ L ".log" ∧
    (run envTunnel (argvOfLength 300) noFiles).2.trace.filter isLoaderCall = [] := by
  have h := run_overflow envTunnel (argvOfLength 300) noFiles (argvOfLength_valid 300)
    (by rw [argvOfLength_identifier]; decide)
  rw [h]
  refine ⟨argvOfLength_valid 300, rfl, rfl, ?_, rfl⟩
  intro hc
  have hl := congrArg List.length hc
  rw [show L "logs\\" ++ (argvOfLength 300).getD 3 [] ++ L ".log" =
    logText ((argvOfLength 300).getD 3 []) from rfl, logText_length] at hl
  simp [emit, start] at hl

/-- C8, amended: for every valid argument vector whose identifier `argv[3]` has at most
246 characters, the run starts with `SetCurrentDirectory(argv[2])` followed by
`DeleteFile` of the log path; the log path, kept in `LOGPATH` and used by every
`CreateFile` call, is `logs`, a backslash, the identifier unchanged and `.log`; and if
the identifier has at most 233 characters and library and export are there, the single
argument of the tunnel procedure is `conf`, a backslash, `connections`, a backslash, the
identifier unchanged and `.conf`.  Both paths are relative, and are given here as
functions of the identifier alone. -/
theorem C8_derived_paths (env : Env) (argv : List WStr) (files : WStr → Option (List Nat))
    (hv : ValidArgs argv) (hlen : (argv.getD 3 []).length ≤ 246) :
    (steps (run env argv files).2.trace).take 2 =
      [Call.SetCurrentDirectory (argv.getD 2 []),
       Call.DeleteFile (L "logs\\" ++ argv.getD 3 [] ++ L ".log")] ∧
    (run env argv files).2.LOGPATH = L "logs\\" ++ argv.getD 3 [] ++ L ".log" ∧
    (∀ p, Call.CreateFile p ∈ (run env argv files).2.trace →
      p = L "logs\\" ++ argv.getD 3 [] ++ L ".log") ∧
    (env.LoadLibrary (L "tunnel.dll") ≠ 0 ∧
        env.GetProcAddress (env.LoadLibrary (L "tunnel.dll")) "WireGuardTunnelService" ≠ 0 ∧
        (argv.getD 3 []).length ≤ 233 →
      (run env argv files).2.trace.filter isLoaderCall =
        [Call.LoadLibrary (L "tunnel.dll"),
         Call.GetProcAddress (env.LoadLibrary (L "tunnel.dll")) "WireGuardTunnelService",
         Call.tunnel_proc
           (env.GetProcAddress (env.LoadLibrary (L "tunnel.dll")) "WireGuardTunnelService")
           (L "conf\\connections\\" ++ argv.getD 3 [] ++ L ".conf")
           (env.tunnel_proc
             (env.GetProcAddress (env.LoadLibrary (L "tunnel.dll")) "WireGuardTunnelService")
             (L "conf\\connections\\" ++ argv.getD 3 [] ++ L ".conf"))]) := by
  refine ⟨run_accepted_start env argv files hv hlen, run_LOGPATH env argv files hv hlen,
    run_opens_at env argv files hv hlen, ?_⟩
  rintro ⟨hlib, hproc, hlen2⟩
  rw [← loader_steps, (steps_run_call env argv files hv hlen2 hlib hproc).2]
  rfl

/-- Witness of C8 (amended): `program /service C:\\app host1`. -/
theorem C8_derived_paths_witness :
    (run envTunnel argvHost1 noFiles).2.LOGPATH = L "logs\\host1.log" ∧
    (run envTunnel argvHost1 noFiles).2.trace.filter isLoaderCall =
      [Call.LoadLibrary (L "tunnel.dll"),
       Call.GetProcAddress 7 "WireGuardTunnelService",
       Call.tunnel_proc 9 (L "conf\\connections\\host1.conf") true] :=
  ⟨(C8_derived_paths envTunnel argvHost1 noFiles argvHost1_valid (by decide)).2.1,
   (C8_derived_paths envTunnel argvHost1 noFiles argvHost1_valid (by decide)).2.2.2
     ⟨by decide, by decide, by decide⟩⟩

/-- C9: two runs on the same argument vector, in environments that answer
`LoadLibrary`, `GetProcAddress` and the tunnel procedure alike and are otherwise
arbitrary (which opens of the log file fail, whether `DeleteFile` succeeds, what the
files hold), make the same sequence of `LoadLibrary` / `GetProcAddress` /
tunnel-procedure calls with the same arguments and end the same way; and when an open
fails, `srv_log` makes the `CreateFile` call and then neither writes nor closes, leaving
every file as it was. -/
theorem C9_logging_failures_swallowed (env1 env2 : Env) (argv : List WStr)
    (files1 files2 : WStr → Option (List Nat))
    (hL : env1.LoadLibrary = env2.LoadLibrary)
    (hG : env1.GetProcAddress = env2.GetProcAddress)
    (hT : env1.tunnel_proc = env2.tunnel_proc) :
    (run env1 argv files1).2.trace.filter isLoaderCall =
      (run env2 argv files2).2.trace.filter isLoaderCall ∧
    (run env1 argv files1).1 = (run env2 argv files2).1 ∧
    (∀ (txt : WStr) (s : State), env1.CreateFile s.opens = false →
      (srv_log env1 txt s).trace = s.trace ++ [Call.srv_log txt, Call.CreateFile s.LOGPATH] ∧
      (srv_log env1 txt s).files = s.files) := by
  refine ⟨?_, ?_, ?_⟩
  · by_cases hv : ValidArgs argv
    · by_cases hlen : (argv.getD 3 []).length ≤ 246
      · rw [run_accepted env1 argv files1 hv hlen, run_accepted env2 argv files2 hv hlen]
        apply (service_congr env1 env2 _ _ _ hL hG hT _).2
        rw [loader_banner, loader_banner, loader_prepared, loader_prepared]
      · rw [run_overflow env1 argv files1 hv (by omega),
          run_overflow env2 argv files2 hv (by omega)]
        rfl
    · rw [run_rejected env1 argv files1 hv, run_rejected env2 argv files2 hv]
      rfl
  · by_cases hv : ValidArgs argv
    · by_cases hlen : (argv.getD 3 []).length ≤ 246
      · rw [run_accepted env1 argv files1 hv hlen, run_accepted env2 argv files2 hv hlen]
        apply (service_congr env1 env2 _ _ _ hL hG hT _).1
        rw [loader_banner, loader_banner, loader_prepared, loader_prepared]
      · rw [run_overflow env1 argv files1 hv (by omega),
          run_overflow env2 argv files2 hv (by omega)]
    · rw [run_rejected env1 argv files1 hv, run_rejected env2 argv files2 hv]
  · intro txt s h
    rw [srv_log_fail env1 txt s h]
    exact ⟨rfl, rfl⟩

/-- Witness of C9: `program /service C:\\app host1` with a working log file, against
the same run with every open of the log file failing. -/
theorem C9_logging_failures_swallowed_witness :
    (run envTunnel argvHost1 noFiles).2.trace.filter isLoaderCall =
      (run envTunnelNoLog argvHost1 noFiles).2.trace.filter isLoaderCall ∧
    (run envTunnel argvHost1 noFiles).1 = (run envTunnelNoLog argvHost1 noFiles).1 :=
  ⟨(C9_logging_failures_swallowed envTunnel envTunnelNoLog argvHost1 noFiles noFiles
      rfl rfl rfl).1,
   (C9_logging_failures_swallowed envTunnel envTunnelNoLog argvHost1 noFiles noFiles
      rfl rfl rfl).2.1⟩

/-- C10, as stated, fails: on a valid command line whose identifier has 234 characters,
with the library loaded and the export resolved, the tunnel procedure is not called and
the run does not end with status 0: it stops in the invalid-parameter handler of
`swprintf_s` on line 104, after `GetProcAddress`. -/
theorem C10_counterexample :
    ValidArgs (argvOfLength 234) ∧
    envTunnel.LoadLibrary (L "tunnel.dll") ≠ 0 ∧
    envTunnel.GetProcAddress (envTunnel.LoadLibrary (L "tunnel.dll"))
      "WireGuardTunnelService" ≠ 0 ∧
    (run envTunnel (argvOfLength 234) noFiles).1 = Outcome.invalid_parameter ∧
    (run envTunnel (argvOfLength 234) noFiles).1 ≠ Outcome.exit 0 ∧
    (run envTunnel (argvOfLength 234) noFiles).2.trace.filter isLoaderCall =
      [Call.LoadLibrary (L "tunnel.dll"),
       Call.GetProcAddress 7 "WireGuardTunnelService"] := by
  obtain ⟨h1, h2⟩ := steps_run_overflow envTunnel (argvOfLength 234) noFiles
    (argvOfLength_valid 234) (by rw [argvOfLength_identifier]; decide)
    (by rw [argvOfLength_identifier]; decide) (by decide) (by decide)
  refine ⟨argvOfLength_valid 234, by decide, by decide, h1, ?_, ?_⟩
  · rw [h1]; decide
  · rw [← loader_steps, h2]; rfl

/-- C10, amended: for every valid argument vector whose identifier has at most 233
characters, with the library loaded and the export resolved, the calls of the run as
seen from `_tmain` are the fifteen listed: the tunnel procedure is called exactly once,
with the configuration path as its single argument, directly after the message
"Starting tunnel" and directly before the message "Normal tunnel exit", which ends the
run with status 0; and whatever boolean the procedure returns, the messages passed to
`srv_log` and the exit status 0 are the same. -/
theorem C10_result_ignored (env : Env) (argv : List WStr) (files : WStr → Option (List Nat))
    (hv : ValidArgs argv) (hlen : (argv.getD 3 []).length ≤ 233)
    (hlib : env.LoadLibrary (L "tunnel.dll") ≠ 0)
    (hproc : env.GetProcAddress (env.LoadLibrary (L "tunnel.dll")) "WireGuardTunnelService" ≠ 0) :
    steps (run env argv files).2.trace =
      [Call.SetCurrentDirectory (argv.getD 2 []),
       Call.DeleteFile (L "logs\\" ++ argv.getD 3 [] ++ L ".log"),
       Call.srv_log (L "[network-configuration-service] [INFO] Service for "),
       Call.srv_log (argv.getD 3 []),
       Call.srv_log (L "\r\n"),
       Call.srv_log (L "[network-configuration-service] [INFO] Running in "),
       Call.srv_log (argv.getD 2 []),
       Call.srv_log (L "\r\n"),
       Call.srv_log (L "[network-configuration-service] [INFO] Opening tunnel.dll\r\n"),
       Call.LoadLibrary (L "tunnel.dll"),
       Call.srv_log (L "[network-configuration-service] [INFO] Looking up procedure\r\n"),
       Call.GetProcAddress (env.LoadLibrary (L "tunnel.dll")) "WireGuardTunnelService",
       Call.srv_log (L "[network-configuration-service] [INFO] Starting tunnel\r\n"),
       Call.tunnel_proc
         (env.GetProcAddress (env.LoadLibrary (L "tunnel.dll")) "WireGuardTunnelService")
         (L "conf\\connections\\" ++ argv.getD 3 [] ++ L ".conf")
         (env.tunnel_proc
           (env.GetProcAddress (env.LoadLibrary (L "tunnel.dll")) "WireGuardTunnelService")
           (L "conf\\connections\\" ++ argv.getD 3 [] ++ L ".conf")),
       Call.srv_log (L "[network-configuration-service] [INFO] Normal tunnel exit\r\n")] ∧
    (run env argv files).1 = Outcome.exit 0 ∧
    (∀ result : Nat → WStr → Bool,
      logged (run { env with tunnel_proc := result } argv files).2.trace =
        logged (run env argv files).2.trace ∧
      (run { env with tunnel_proc := result } argv files).1 = Outcome.exit 0) := by
  obtain ⟨h1, h2⟩ := steps_run_call env argv files hv hlen hlib hproc
  refine ⟨h2, h1, ?_⟩
  intro result
  obtain ⟨h3, h4⟩ :=
    steps_run_call { env with tunnel_proc := result } argv files hv hlen hlib hproc
  refine ⟨?_, h3⟩
  rw [← logged_steps, h4, ← logged_steps (run env argv files).2.trace, h2]
  rfl

/-- Witness of C10 (amended): `program /service C:\\app host1`, where the procedure
returns `TRUE`, against the run in which it returns `FALSE`. -/
theorem C10_result_ignored_witness :
    (run envTunnel argvHost1 noFiles).1 = Outcome.exit 0 ∧
    logged (run { envTunnel with tunnel_proc := fun _ _ => false } argvHost1
        noFiles).2.trace =
      logged (run envTunnel argvHost1 noFiles).2.trace ∧
    (run { envTunnel with tunnel_proc := fun _ _ => false } argvHost1 noFiles).1 =
      Outcome.exit 0 :=
  ⟨(C10_result_ignored envTunnel argvHost1 noFiles argvHost1_valid (by decide)
      (by decide) (by decide)).2.1,
   (C10_result_ignored envTunnel argvHost1 noFiles argvHost1_valid (by decide)
      (by decide) (by decide)).2.2 (fun _ _ => false)⟩

end Launcher
